import Mathlib

/-!
Verification development for the Inventory backend: a shallow embedding of
the device/inventory managers (src/app/crud/device_manager.py,
src/app/crud/inventory_manager.py), the API response shapes
(src/app/api/device_api.py), and the stock calculation engine.
Weights and stock quantities (SQL `Float` columns) are modelled as `ℚ`;
timestamps as `Int` (seconds); the relational store as in-memory lists
with equality-filter reads, matching the Persistence Gateway contract.
-/

namespace InventoryApp

/-- JSON-like value used to model the exact shape of HTTP response payloads. -/
inductive JVal where
  | null
  | bool (b : Bool)
  | str (s : String)
  | int (n : Int)
  | rat (q : ℚ)
  | arr (xs : List JVal)
  | obj (fields : List (String × JVal))

/-- Device row. The device model file is not part of the sources; its fields are
reconstructed from their uses in device_manager.py / inventory_manager.py
(DeviceId, DeviceName, Weight, LastReading, LocationName, Status) and §3 of the spec. -/
structure Device where
  DeviceId : Int
  DeviceName : String
  Weight : ℚ
  LastReading : ℚ
  LocationName : String
  Status : String
deriving Repr, DecidableEq

/-- Inventory row, from src/app/models/inventory_model.py (all item columns nullable). -/
structure Inventory where
  InventoryId : Int
  ItemCode : Option String
  ItemName : Option String
  Category : Option String
  Description : Option String
  DeviceId : Option Int
  UnitWeight : Option ℚ
  Stock : Option ℚ
  Threshold : Option ℚ
  StockOut : Option ℚ
  Consumption : Option ℚ
  Status : Option String
  CreatedAt : Int
  UpdatedAt : Int
deriving Repr, DecidableEq

/-- WeightTracking row: DeviceId, Weight, DateTime (append-only history). -/
structure WTRow where
  DeviceId : Int
  Weight : ℚ
  DateTime : Int
deriving Repr, DecidableEq

/-- ActivityLog row: DeviceId, Event, DateTime (append-only audit). -/
structure ALRow where
  DeviceId : Int
  Event : String
  DateTime : Int
deriving Repr, DecidableEq

/-- The relational store: one table per model class. -/
structure SystemState where
  devices : List Device
  inventories : List Inventory
  weightRows : List WTRow
  activityRows : List ALRow
deriving Repr, DecidableEq

/-- db_manager.read(Device, filters DeviceId=id): equality-filter read returning all matches. -/
def readDevices (st : SystemState) (deviceId : Int) : List Device :=
  st.devices.filter (fun d => d.DeviceId == deviceId)

/-- First device returned by readDevices (the source indexes result[0] / devices[0]). -/
def firstDevice (st : SystemState) (deviceId : Int) : Option Device :=
  (readDevices st deviceId).head?

/-!
### Stock Calculation Engine
The engine (`StockCalculatorService.update_stock_by_device`, imported from
app/utils/stock_calculator.py) is not among the sources; it is modelled from §4.2
of the spec.
-/

/-- Modelled from the spec: §4.2 step 6 of the missing StockCalculatorService —
status classification, evaluated in order: `Stock <= StockOut` → OutOfStock;
else `Stock <= Threshold` → LowStock; else Normal. -/
def classifyStatus (stock stockOut threshold : ℚ) : String :=
  if stock ≤ stockOut then "OutOfStock"
  else if stock ≤ threshold then "LowStock"
  else "Normal"

/-- Modelled from the spec: §4.2 steps 2–7 of the missing StockCalculatorService —
per-row recompute. `delta = LastReading - Weight`; `unitsConsumed = delta / UnitWeight`
guarded by `UnitWeight > 0` (0/absent skips the recompute);
`Stock = max(0, previousStock - unitsConsumed)`; `Consumption += unitsConsumed`
clamped to ≥ 0; status reclassified; `UpdatedAt` refreshed. -/
def recomputeRow (lastReading weight : ℚ) (inv : Inventory) (now : Int) : Inventory :=
  match inv.UnitWeight with
  | none => inv
  | some uw =>
    if 0 < uw then
      let delta := lastReading - weight
      let unitsConsumed := delta / uw
      let previousStock := inv.Stock.getD 0
      let newStock := max 0 (previousStock - unitsConsumed)
      let newConsumption := max 0 (inv.Consumption.getD 0 + unitsConsumed)
      { inv with
          Stock := some newStock,
          Consumption := some newConsumption,
          Status := some (classifyStatus newStock (inv.StockOut.getD 0) (inv.Threshold.getD 0)),
          UpdatedAt := now }
    else inv

/-- Modelled from the spec: §4.2 of the missing StockCalculatorService — given a
device id, fetch the device's current Weight and LastReading, recompute every
inventory row whose DeviceId matches, one update per matched row; finding no
matching row is a no-op. -/
def update_stock_by_device (st : SystemState) (deviceId : Int) (now : Int) : SystemState :=
  match readDevices st deviceId with
  | [] => st
  | d :: _ =>
    { st with
        inventories := st.inventories.map (fun inv =>
          if inv.DeviceId == some deviceId then recomputeRow d.LastReading d.Weight inv now
          else inv) }

/-!
### DeviceManager.update_device_weight (src/app/crud/device_manager.py, lines 146–216)
-/

/-- Data payload of a successful weight update: DeviceId, LastReading, Weight. -/
structure WeightUpdateData where
  DeviceId : Int
  LastReading : ℚ
  Weight : ℚ
deriving Repr, DecidableEq

/-- Envelope returned by update_device_weight. -/
structure WeightUpdateResp where
  success : Bool
  message : String
  data : Option WeightUpdateData
deriving Repr, DecidableEq

/-- DeviceManager.update_device_weight: read the device (not-found fails); write
LastReading := previous weight, Weight := new weight; append a WeightTracking row;
append an ActivityLog entry through _log_activity, whose failure (logOk = false)
is swallowed; trigger the stock recalculation; return before/after values. -/
def update_device_weight (st : SystemState) (deviceId : Int) (newWeight : ℚ)
    (logOk : Bool) (now : Int) : SystemState × WeightUpdateResp :=
  match readDevices st deviceId with
  | [] => (st, { success := false, message := "Device not found", data := none })
  | device :: _ =>
    let previousWeight := device.Weight
    let st1 : SystemState := { st with
      devices := st.devices.map (fun (d : Device) =>
        if d.DeviceId == deviceId then { d with LastReading := previousWeight, Weight := newWeight }
        else d) }
    let st2 : SystemState := { st1 with
      weightRows := st1.weightRows ++ [{ DeviceId := deviceId, Weight := newWeight, DateTime := now }] }
    let st3 :=
      if logOk then
        { st2 with activityRows := st2.activityRows ++
            [{ DeviceId := deviceId,
               Event := "Weight updated from " ++ toString previousWeight ++ " to " ++ toString newWeight,
               DateTime := now }] }
      else st2
    let st4 := update_stock_by_device st3 deviceId now
    (st4, { success := true,
            message := "Device weight updated, logged, and stock recalculated",
            data := some { DeviceId := deviceId, LastReading := previousWeight, Weight := newWeight } })

/-- Data payload of sync_device. -/
structure SyncData where
  DeviceId : Int
deriving Repr, DecidableEq

/-- Envelope returned by sync_device. -/
structure SyncResp where
  success : Bool
  message : String
  data : SyncData
deriving Repr, DecidableEq

/-- DeviceManager.sync_device (lines 219–225): logs a "Device Synched" activity entry
through _log_activity (failure swallowed, modelled by logOk = false) and returns an
acknowledgement; no device read, no not-found check, no other state touched. -/
def sync_device (st : SystemState) (deviceId : Int) (logOk : Bool) (now : Int) :
    SystemState × SyncResp :=
  let st1 :=
    if logOk then
      { st with activityRows := st.activityRows ++
          [{ DeviceId := deviceId, Event := "Device Synched", DateTime := now }] }
    else st
  (st1, { success := true, message := "Device synced successfully", data := { DeviceId := deviceId } })

/-!
### DeviceManager.get_all_devices (lines 65–103)
-/

/-- Status counters initialized to zero and bumped per device. -/
@[ext]
structure StatusCount where
  Online : Nat
  Offline : Nat
  Unlinked : Nat
  LowBattery : Nat
deriving Repr, DecidableEq

/-- One loop step of get_all_devices: `if d.Status in status_count: status_count[d.Status] += 1` —
only the four initialized keys are counted, anything else is left uncounted. -/
def bumpStatus (sc : StatusCount) (s : String) : StatusCount :=
  if s = "Online" then { sc with Online := sc.Online + 1 }
  else if s = "Offline" then { sc with Offline := sc.Offline + 1 }
  else if s = "Unlinked" then { sc with Unlinked := sc.Unlinked + 1 }
  else if s = "LowBattery" then { sc with LowBattery := sc.LowBattery + 1 }
  else sc

/-- Data payload of get_all_devices: the status counters merged with the device list. -/
structure DevicesListData where
  counts : StatusCount
  Devices : List Device
deriving Repr, DecidableEq

/-- Envelope returned by get_all_devices. -/
structure DevicesListResp where
  success : Bool
  message : String
  data : DevicesListData
deriving Repr, DecidableEq

/-- DeviceManager.get_all_devices: read all devices, tally status counts over the
four recognized statuses, and return every device (the source appends
DeviceRead.from_orm(d) for each row unconditionally). -/
def get_all_devices (st : SystemState) : DevicesListResp :=
  { success := true
    message := "Devices fetched successfully"
    data :=
      { counts := st.devices.foldl (fun sc d => bumpStatus sc d.Status)
          { Online := 0, Offline := 0, Unlinked := 0, LowBattery := 0 }
        Devices := st.devices } }

/-!
### InventoryManager (src/app/crud/inventory_manager.py)
-/

/-- Reduced device projection embedded in inventory reads:
DeviceId, DeviceName, LastReading, Weight, LocationName. -/
structure DeviceView where
  DeviceId : Int
  DeviceName : String
  LastReading : ℚ
  Weight : ℚ
  LocationName : String
deriving Repr, DecidableEq

/-- Projection of a device to the embedded dictionary. -/
def deviceView (d : Device) : DeviceView :=
  { DeviceId := d.DeviceId, DeviceName := d.DeviceName, LastReading := d.LastReading,
    Weight := d.Weight, LocationName := d.LocationName }

/-- One entry of the inventory response payload (get_inventory / get_all_inventory). -/
structure InventoryView where
  InventoryId : Int
  ItemCode : Option String
  ItemName : Option String
  Category : Option String
  Description : Option String
  Device : Option DeviceView
  UnitWeight : Option ℚ
  Stock : Option ℚ
  Threshold : Option ℚ
  StockOut : Option ℚ
  Consumption : Option ℚ
  Status : Option String
  CreatedAt : Int
  UpdatedAt : Int
deriving Repr, DecidableEq

/-- Python truthiness of `if inventory.DeviceId:` — NULL and 0 are both falsy. -/
def truthyId : Option Int → Bool
  | none => false
  | some n => n != 0

/-- Envelope returned by get_inventory. -/
structure InventoryGetResp where
  success : Bool
  message : String
  data : Option InventoryView
deriving Repr, DecidableEq

/-- InventoryManager.get_inventory (lines 37–102): read the row (not-found fails);
when `inventory.DeviceId` is truthy, read the device and take the first match or
None; embed the reduced device projection or null. -/
def get_inventory (st : SystemState) (inventoryId : Int) : InventoryGetResp :=
  match st.inventories.filter (fun i => i.InventoryId == inventoryId) with
  | [] => { success := false, message := "Inventory not found", data := none }
  | inventory :: _ =>
    let device : Option Device :=
      if truthyId inventory.DeviceId then
        (st.devices.filter (fun d => some d.DeviceId == inventory.DeviceId)).head?
      else none
    { success := true
      message := "Inventory fetched successfully"
      data := some
        { InventoryId := inventory.InventoryId, ItemCode := inventory.ItemCode,
          ItemName := inventory.ItemName, Category := inventory.Category,
          Description := inventory.Description,
          Device := device.map deviceView,
          UnitWeight := inventory.UnitWeight, Stock := inventory.Stock,
          Threshold := inventory.Threshold, StockOut := inventory.StockOut,
          Consumption := inventory.Consumption, Status := inventory.Status,
          CreatedAt := inventory.CreatedAt, UpdatedAt := inventory.UpdatedAt } }

/-- Python's `device_map = {d.DeviceId: d for d in devices}` followed by
`device_map.get(key)`: the comprehension keeps the LAST device per id and
`.get` of a NULL DeviceId finds no (integer) key. -/
def deviceMapGet (ds : List Device) : Option Int → Option Device
  | none => none
  | some k => (ds.filter (fun d => d.DeviceId == k)).getLast?

/-- The list entry built for one inventory row by get_all_inventory's loop:
`stock = inv.Stock or 0` (NULL coalesced to 0), device looked up in device_map. -/
def invListView (ds : List Device) (inv : Inventory) : InventoryView :=
  let device := deviceMapGet ds inv.DeviceId
  { InventoryId := inv.InventoryId, ItemCode := inv.ItemCode,
    ItemName := inv.ItemName, Category := inv.Category, Description := inv.Description,
    Device := device.map deviceView,
    UnitWeight := inv.UnitWeight, Stock := some (inv.Stock.getD 0),
    Threshold := inv.Threshold, StockOut := inv.StockOut,
    Consumption := inv.Consumption, Status := inv.Status,
    CreatedAt := inv.CreatedAt, UpdatedAt := inv.UpdatedAt }

/-- Data payload of get_all_inventory: the four aggregate counters and the list. -/
structure InventoryListData where
  TotalItems : Nat
  LowStock : Nat
  OutOfStock : Nat
  LinkedDevices : Nat
  InventoryData : List InventoryView
deriving Repr, DecidableEq

/-- Envelope returned by get_all_inventory. -/
structure InventoryListResp where
  success : Bool
  message : String
  data : InventoryListData
deriving Repr, DecidableEq

/-- InventoryManager.get_all_inventory (lines 105–185): a single loop accumulates
total_items (every row), low_stock / out_of_stock (by stored Status, an elif chain),
linked_devices (rows whose DeviceId resolves in device_map) and the entry list. -/
def get_all_inventory (st : SystemState) : InventoryListResp :=
  { success := true
    message := "Inventory fetched successfully"
    data :=
      { TotalItems := st.inventories.length
        LowStock := st.inventories.countP (fun inv => inv.Status == some "LowStock")
        OutOfStock := st.inventories.countP (fun inv =>
          !(inv.Status == some "LowStock") && inv.Status == some "OutOfStock")
        LinkedDevices := st.inventories.countP (fun inv =>
          (deviceMapGet st.devices inv.DeviceId).isSome)
        InventoryData := st.inventories.map (invListView st.devices) } }

/-!
### WeightTrackingManager.get / ActivityLogManager.get (lines 287–309 / 344–360)
-/

/-- The `{"day": 1, "week": 7, "month": 30}.get(filter_by)` lookup. -/
def windowDays (fb : String) : Option Nat :=
  if fb = "day" then some 1
  else if fb = "week" then some 7
  else if fb = "month" then some 30
  else none

/-- Ordering used by `data.sort(key=lambda x: x.DateTime, reverse=True)`. -/
def wtDateDesc (a b : WTRow) : Prop := b.DateTime ≤ a.DateTime

instance : DecidableRel wtDateDesc := fun a b =>
  inferInstanceAs (Decidable (b.DateTime ≤ a.DateTime))

instance : IsTotal WTRow wtDateDesc :=
  ⟨fun a b => (le_total a.DateTime b.DateTime).symm⟩

instance : IsTrans WTRow wtDateDesc :=
  ⟨fun _ _ _ h1 h2 => le_trans h2 h1⟩

/-- Ordering used by `logs.sort(key=lambda x: x.DateTime, reverse=True)`. -/
def alDateDesc (a b : ALRow) : Prop := b.DateTime ≤ a.DateTime

instance : DecidableRel alDateDesc := fun a b =>
  inferInstanceAs (Decidable (b.DateTime ≤ a.DateTime))

instance : IsTotal ALRow alDateDesc :=
  ⟨fun a b => (le_total a.DateTime b.DateTime).symm⟩

instance : IsTrans ALRow alDateDesc :=
  ⟨fun _ _ _ h1 h2 => le_trans h2 h1⟩

/-- WeightTrackingManager.get: read the device's rows; `if filter_by:` (falsy for
None and ""), look up the window in days and, only when found (`if delta:`), keep
rows with `DateTime >= now - timedelta(days=delta)`; sort newest-first (stable). -/
def wtGet (st : SystemState) (deviceId : Int) (filterBy : Option String) (now : Int) :
    List WTRow :=
  let data := st.weightRows.filter (fun d => d.DeviceId == deviceId)
  let data :=
    match filterBy with
    | none => data
    | some fb =>
      if fb = "" then data
      else
        match windowDays fb with
        | none => data
        | some days => data.filter (fun d => now - (days : Int) * 86400 ≤ d.DateTime)
  List.insertionSort wtDateDesc data

/-- ActivityLogManager.get: same filtering and newest-first sort over activity rows. -/
def alGet (st : SystemState) (deviceId : Int) (filterBy : Option String) (now : Int) :
    List ALRow :=
  let logs := st.activityRows.filter (fun l => l.DeviceId == deviceId)
  let logs :=
    match filterBy with
    | none => logs
    | some fb =>
      if fb = "" then logs
      else
        match windowDays fb with
        | none => logs
        | some days => logs.filter (fun l => now - (days : Int) * 86400 ≤ l.DateTime)
  List.insertionSort alDateDesc logs

/-!
### Response shapes (src/app/api/device_api.py and crud envelopes)
Each definition below is the literal dictionary produced by one handler,
modelled at the key level so that the presence/absence of envelope fields
is checkable.
-/

/-- Top-level keys of a response object. -/
def responseKeys (fields : List (String × JVal)) : List String := fields.map Prod.fst

/-- Whether a response carries all three envelope fields success/message/data. -/
def hasEnvelopeKeys (fields : List (String × JVal)) : Bool :=
  (responseKeys fields).contains "success" &&
  (responseKeys fields).contains "message" &&
  (responseKeys fields).contains "data"

/-- Keys of a JSON object value, none for a non-object. -/
def jvalKeys : JVal → Option (List String)
  | .obj fields => some (fields.map Prod.fst)
  | _ => none

/-- WeightTrackingAPI.get: `{"success": True, "data": data}`. -/
def wt_api_get_response (data : JVal) : List (String × JVal) :=
  [("success", .bool true), ("data", data)]

/-- WeightTrackingAPI.delete: `{"success": True, "deleted": rows}`. -/
def wt_api_delete_response (rows : Int) : List (String × JVal) :=
  [("success", .bool true), ("deleted", .int rows)]

/-- WeightTrackingAPI.clear: `{"success": True, "message": "Weight tracking cleared"}`. -/
def wt_api_clear_response : List (String × JVal) :=
  [("success", .bool true), ("message", .str "Weight tracking cleared")]

/-- WeightTrackingAPI.create returns WeightTrackingManager.create's value: the raw
created WeightTracking row, serialized as its columns — no envelope at all. -/
def wt_api_create_response (row : WTRow) : JVal :=
  .obj [("DeviceId", .int row.DeviceId), ("Weight", .rat row.Weight),
        ("DateTime", .int row.DateTime)]

/-- ActivityLogAPI.get: `{"success": True, "data": data}`. -/
def al_api_get_response (data : JVal) : List (String × JVal) :=
  [("success", .bool true), ("data", data)]

/-- ActivityLogAPI.delete: `{"success": True, "deleted": rows}`. -/
def al_api_delete_response (rows : Int) : List (String × JVal) :=
  [("success", .bool true), ("deleted", .int rows)]

/-- ActivityLogAPI.clear: `{"success": True, "message": "Activity log cleared"}`. -/
def al_api_clear_response : List (String × JVal) :=
  [("success", .bool true), ("message", .str "Activity log cleared")]

/-- ActivityLogAPI.create returns the raw created ActivityLog row — no envelope. -/
def al_api_create_response (row : ALRow) : JVal :=
  .obj [("DeviceId", .int row.DeviceId), ("Event", .str row.Event),
        ("DateTime", .int row.DateTime)]

/-- DeviceManager.update_device, success branch (lines 115–120). -/
def update_device_success_response (rowsAffected : Int) : List (String × JVal) :=
  [("success", .bool true), ("message", .str "Device updated successfully"),
   ("data", .obj [("rows_affected", .int rowsAffected)])]

/-- DeviceManager.update_device, not-found branch (line 122): no data key. -/
def update_device_notfound_response : List (String × JVal) :=
  [("success", .bool false), ("message", .str "Device not found")]

/-- DeviceManager.update_device_weight, success branch (lines 197–205). -/
def udw_success_response (deviceId : Int) (lastReading weight : ℚ) : List (String × JVal) :=
  [("success", .bool true),
   ("message", .str "Device weight updated, logged, and stock recalculated"),
   ("data", .obj [("DeviceId", .int deviceId), ("LastReading", .rat lastReading),
                  ("Weight", .rat weight)])]

/-- DeviceManager.update_device_weight, not-found / error branches (152–157, 207–213). -/
def udw_failure_response (message : String) : List (String × JVal) :=
  [("success", .bool false), ("message", .str message), ("data", .null)]

/-- DeviceManager.get_device, found branch (lines 55–59). -/
def get_device_found_response (data : JVal) : List (String × JVal) :=
  [("success", .bool true), ("message", .str "Device fetched successfully"), ("data", data)]

/-- DeviceManager.get_device, not-found branch (line 61). -/
def get_device_notfound_response : List (String × JVal) :=
  [("success", .bool false), ("message", .str "Device not found"), ("data", .null)]

/-!
## Theorems
-/

/-- Reduction of recomputeRow when the UnitWeight guard passes. -/
theorem recomputeRow_of_pos (lastReading weight : ℚ) (inv : Inventory) (now : Int)
    (uw : ℚ) (hu : inv.UnitWeight = some uw) (hpos : 0 < uw) :
    recomputeRow lastReading weight inv now =
      { inv with
          Stock := some (max 0 (inv.Stock.getD 0 - (lastReading - weight) / uw)),
          Consumption := some (max 0 (inv.Consumption.getD 0 + (lastReading - weight) / uw)),
          Status := some (classifyStatus (max 0 (inv.Stock.getD 0 - (lastReading - weight) / uw))
            (inv.StockOut.getD 0) (inv.Threshold.getD 0)),
          UpdatedAt := now } := by
  simp only [recomputeRow, hu]
  rw [if_pos hpos]

/-- Inventory row of the C1 concrete scenario: UnitWeight 10, previous Stock 50,
Threshold 10, StockOut 0. -/
def c1Row : Inventory :=
  { InventoryId := 1, ItemCode := none, ItemName := none, Category := none,
    Description := none, DeviceId := some 1, UnitWeight := some 10,
    Stock := some 50, Threshold := some 10, StockOut := some 0,
    Consumption := some 0, Status := some "Normal", CreatedAt := 0, UpdatedAt := 0 }

/-- C1: with the device holding LastReading (previous weight) and Weight (new weight),
the recompute produces Stock = max(0, previousStock - (LastReading - Weight)/UnitWeight);
on UnitWeight=10, LastReading=1000, Weight=950, previousStock=50, StockOut=0,
Threshold=10 it yields unitsConsumed = 5, newStock = 45 and Status "Normal". -/
theorem stock_recompute_arithmetic :
    (∀ (lastReading weight uw s : ℚ) (inv : Inventory) (now : Int),
        inv.UnitWeight = some uw → 0 < uw → inv.Stock = some s →
        (recomputeRow lastReading weight inv now).Stock =
          some (max 0 (s - (lastReading - weight) / uw))) ∧
    (((1000 : ℚ) - 950) / 10 = 5 ∧
      (recomputeRow 1000 950 c1Row 7).Stock = some 45 ∧
      (recomputeRow 1000 950 c1Row 7).Status = some "Normal") := by
  refine ⟨fun lastReading weight uw s inv now hu hpos hs => ?_, by norm_num, ?_, ?_⟩
  · rw [recomputeRow_of_pos lastReading weight inv now uw hu hpos]
    simp [hs]
  · norm_num [recomputeRow, c1Row, classifyStatus]
  · norm_num [recomputeRow, c1Row, classifyStatus]

/-- C1 witness: the arithmetic theorem applied at the C1 scenario. -/
theorem stock_recompute_arithmetic_witness :
    (recomputeRow 1000 950 c1Row 7).Stock = some (max 0 (50 - (1000 - 950) / 10)) :=
  stock_recompute_arithmetic.1 1000 950 10 50 c1Row 7 rfl (by norm_num) rfl

/-- Inventory row whose computed consumption (1000 units) exceeds its stock (5). -/
def c3Row : Inventory :=
  { InventoryId := 3, ItemCode := none, ItemName := none, Category := none,
    Description := none, DeviceId := some 1, UnitWeight := some 1,
    Stock := some 5, Threshold := some 2, StockOut := some 0,
    Consumption := some 0, Status := some "Normal", CreatedAt := 0, UpdatedAt := 0 }

/-- C3: whenever the stock-recalculation step processes a row (UnitWeight present and
positive), the resulting Stock is never negative — it is clamped at 0 even when the
computed consumption exceeds the previous stock. -/
theorem stock_recompute_nonneg (lastReading weight : ℚ) (inv : Inventory) (now : Int)
    (uw : ℚ) (hu : inv.UnitWeight = some uw) (hpos : 0 < uw) :
    ∀ s : ℚ, (recomputeRow lastReading weight inv now).Stock = some s → 0 ≤ s := by
  intro s h
  rw [recomputeRow_of_pos lastReading weight inv now uw hu hpos] at h
  simp only [Option.some.injEq] at h
  rw [← h]
  exact le_max_left 0 _

/-- C3 witness: on a row with stock 5 and computed consumption 1000, the new stock is
the clamped value 0, which the theorem shows is nonnegative. -/
theorem stock_recompute_nonneg_witness : 0 ≤ (0 : ℚ) :=
  stock_recompute_nonneg 1000 0 c3Row 0 1 rfl one_pos 0
    (by norm_num [recomputeRow, c3Row, classifyStatus])

/-- C4: status classification is evaluated in severity order — Stock ≤ StockOut gives
OutOfStock, else Stock ≤ Threshold gives LowStock, else Normal; at the boundaries,
Stock = StockOut gives OutOfStock (never LowStock) and Stock = Threshold (above
StockOut) gives LowStock (never Normal). -/
theorem status_severity_order :
    (∀ s so th : ℚ, s ≤ so → classifyStatus s so th = "OutOfStock") ∧
    (∀ s so th : ℚ, so < s → s ≤ th → classifyStatus s so th = "LowStock") ∧
    (∀ s so th : ℚ, so < s → th < s → classifyStatus s so th = "Normal") ∧
    (∀ so th : ℚ, classifyStatus so so th = "OutOfStock") ∧
    (∀ so th : ℚ, so < th → classifyStatus th so th = "LowStock") := by
  refine ⟨fun s so th h => ?_, fun s so th h1 h2 => ?_, fun s so th h1 h2 => ?_,
    fun so th => ?_, fun so th h => ?_⟩
  · rw [classifyStatus, if_pos h]
  · rw [classifyStatus, if_neg (not_le.mpr h1), if_pos h2]
  · rw [classifyStatus, if_neg (not_le.mpr h1), if_neg (not_le.mpr h2)]
  · rw [classifyStatus, if_pos le_rfl]
  · rw [classifyStatus, if_neg (not_le.mpr h), if_pos le_rfl]

/-- C4 witness: the classification theorem applied at the tie and interior points of
the scenario StockOut = 0, Threshold = 10. -/
theorem status_severity_order_witness :
    classifyStatus 0 0 10 = "OutOfStock" ∧
    classifyStatus 10 0 10 = "LowStock" ∧
    classifyStatus 11 0 10 = "Normal" :=
  ⟨status_severity_order.2.2.2.1 0 10,
   status_severity_order.2.2.2.2 0 10 (by norm_num),
   status_severity_order.2.2.1 11 0 10 (by norm_num) (by norm_num)⟩

/-- The stock recalculation never touches the device table. -/
theorem update_stock_by_device_devices (st : SystemState) (id now : Int) :
    (update_stock_by_device st id now).devices = st.devices := by
  cases hR : readDevices st id <;> simp [update_stock_by_device, hR]

/-- The stock recalculation never touches the weight-history table. -/
theorem update_stock_by_device_weightRows (st : SystemState) (id now : Int) :
    (update_stock_by_device st id now).weightRows = st.weightRows := by
  cases hR : readDevices st id <;> simp [update_stock_by_device, hR]

/-- Filtering by DeviceId commutes with a DeviceId-preserving conditional map. -/
theorem filter_map_update (ds : List Device) (id : Int) (g : Device → Device)
    (hg : ∀ d, (g d).DeviceId = d.DeviceId) :
    (ds.map (fun d => if d.DeviceId == id then g d else d)).filter
        (fun d => d.DeviceId == id) =
      (ds.filter (fun d => d.DeviceId == id)).map g := by
  induction ds with
  | nil => rfl
  | cons a tl ih =>
    simp only [List.map_cons, List.filter_cons]
    by_cases h : a.DeviceId = id
    · have hb : (a.DeviceId == id) = true := beq_iff_eq.mpr h
      have hgb : ((g a).DeviceId == id) = true := beq_iff_eq.mpr (by rw [hg a]; exact h)
      rw [if_pos hb, if_pos hgb, if_pos hb, List.map_cons, ih]
    · have hb : (a.DeviceId == id) = false := beq_eq_false_iff_ne.mpr h
      rw [if_neg (by simp [hb]), if_neg (by simp [hb])]
      exact ih

/-- The first device matching an id, after the weight-update write, is the written
version of the first match before it. -/
theorem firstDevice_map_update (ds : List Device) (id : Int) (p w : ℚ) :
    ((ds.map (fun e =>
        if e.DeviceId == id then { e with LastReading := p, Weight := w } else e)).filter
          (fun e => e.DeviceId == id)).head? =
      ((ds.filter (fun e => e.DeviceId == id)).head?).map
        (fun e => { e with LastReading := p, Weight := w }) := by
  rw [filter_map_update ds id (fun e => { e with LastReading := p, Weight := w })
    (fun d => rfl), List.head?_map]

/-- Response of update_device_weight when the device read succeeds. -/
theorem update_device_weight_resp (st : SystemState) (id : Int) (d : Device) (tl : List Device)
    (w : ℚ) (lo : Bool) (now : Int) (h : readDevices st id = d :: tl) :
    (update_device_weight st id w lo now).2 =
      { success := true, message := "Device weight updated, logged, and stock recalculated",
        data := some { DeviceId := id, LastReading := d.Weight, Weight := w } } := by
  simp only [update_device_weight, h]

/-- Device table after update_device_weight: LastReading and Weight written on every
matching row, other rows untouched. -/
theorem update_device_weight_devices (st : SystemState) (id : Int) (d : Device)
    (tl : List Device) (w : ℚ) (lo : Bool) (now : Int) (h : readDevices st id = d :: tl) :
    (update_device_weight st id w lo now).1.devices =
      st.devices.map (fun e =>
        if e.DeviceId == id then { e with LastReading := d.Weight, Weight := w } else e) := by
  cases lo <;> simp only [update_device_weight, h, Bool.false_eq_true, if_true, if_false,
    update_stock_by_device_devices]

/-- Weight-history table after update_device_weight: exactly one row appended. -/
theorem update_device_weight_weightRows (st : SystemState) (id : Int) (d : Device)
    (tl : List Device) (w : ℚ) (lo : Bool) (now : Int) (h : readDevices st id = d :: tl) :
    (update_device_weight st id w lo now).1.weightRows =
      st.weightRows ++ [{ DeviceId := id, Weight := w, DateTime := now }] := by
  cases lo <;> simp only [update_device_weight, h, Bool.false_eq_true, if_true, if_false,
    update_stock_by_device_weightRows]

/-- A successful readDevices head is a cons. -/
theorem firstDevice_cons (st : SystemState) (id : Int) (d : Device)
    (h : firstDevice st id = some d) : ∃ tl, readDevices st id = d :: tl := by
  cases hR : readDevices st id with
  | nil => rw [firstDevice, hR] at h; exact absurd h (by simp)
  | cons a tl =>
    rw [firstDevice, hR] at h
    simp only [List.head?_cons, Option.some.injEq] at h
    subst h
    exact ⟨tl, rfl⟩

/-- C2: a successful weight update to w1 leaves the device with LastReading = w0 and
Weight = w1, and a subsequent update to w2 leaves LastReading = w1 and Weight = w2 —
LastReading trails the most recent update by exactly one, for any two consecutive
updates of any sequence. -/
theorem lastReading_trails (st : SystemState) (id : Int) (d : Device) (w1 w2 : ℚ)
    (lo1 lo2 : Bool) (n1 n2 : Int) (h : firstDevice st id = some d) :
    (update_device_weight st id w1 lo1 n1).2.success = true ∧
    firstDevice (update_device_weight st id w1 lo1 n1).1 id =
      some { d with LastReading := d.Weight, Weight := w1 } ∧
    (update_device_weight (update_device_weight st id w1 lo1 n1).1 id w2 lo2 n2).2.success
      = true ∧
    firstDevice (update_device_weight (update_device_weight st id w1 lo1 n1).1 id w2 lo2 n2).1
        id = some { d with LastReading := w1, Weight := w2 } := by
  obtain ⟨tl, hl⟩ := firstDevice_cons st id d h
  have h1r := update_device_weight_resp st id d tl w1 lo1 n1 hl
  have h1d : firstDevice (update_device_weight st id w1 lo1 n1).1 id =
      some { d with LastReading := d.Weight, Weight := w1 } := by
    rw [firstDevice, readDevices, update_device_weight_devices st id d tl w1 lo1 n1 hl,
      firstDevice_map_update]
    rw [firstDevice, readDevices] at h
    rw [h]
    rfl
  obtain ⟨tl2, hl2⟩ := firstDevice_cons _ id _ h1d
  have h2r := update_device_weight_resp _ id _ tl2 w2 lo2 n2 hl2
  have h2d : firstDevice
      (update_device_weight (update_device_weight st id w1 lo1 n1).1 id w2 lo2 n2).1 id =
      some { d with LastReading := w1, Weight := w2 } := by
    rw [firstDevice, readDevices, update_device_weight_devices _ id _ tl2 w2 lo2 n2 hl2,
      firstDevice_map_update]
    rw [firstDevice, readDevices] at h1d
    rw [h1d]
    rfl
  exact ⟨by rw [h1r], h1d, by rw [h2r], h2d⟩

/-- Device used by the concrete two-update run. -/
def c2Dev : Device :=
  { DeviceId := 1, DeviceName := "scale-1", Weight := 10, LastReading := 0,
    LocationName := "shelf", Status := "Online" }

/-- State holding exactly the device of the concrete two-update run. -/
def c2State : SystemState :=
  { devices := [c2Dev], inventories := [], weightRows := [], activityRows := [] }

/-- C2 witness: two consecutive updates (to 20, then 30) on a concrete one-device
state leave LastReading = 20 and Weight = 30. -/
theorem lastReading_trails_witness :
    firstDevice (update_device_weight (update_device_weight c2State 1 20 true 5).1
        1 30 true 6).1 1 = some { c2Dev with LastReading := 20, Weight := 30 } :=
  (lastReading_trails c2State 1 c2Dev 20 30 true true 5 6 rfl).2.2.2

/-- The per-row recompute is skipped (row returned untouched) when UnitWeight is
absent or zero. -/
theorem recomputeRow_skip (lr w : ℚ) (inv : Inventory) (now : Int)
    (h : inv.UnitWeight = none ∨ inv.UnitWeight = some 0) :
    recomputeRow lr w inv now = inv := by
  rcases h with h | h <;> simp [recomputeRow, h]

/-- The whole stock recalculation leaves the inventory table unchanged when every
row linked to the device has UnitWeight absent or zero. -/
theorem update_stock_by_device_skip (st : SystemState) (id now : Int)
    (hinv : ∀ inv ∈ st.inventories, inv.DeviceId = some id →
      inv.UnitWeight = none ∨ inv.UnitWeight = some 0) :
    (update_stock_by_device st id now).inventories = st.inventories := by
  cases hR : readDevices st id with
  | nil => simp [update_stock_by_device, hR]
  | cons a tl =>
    simp only [update_stock_by_device, hR]
    calc st.inventories.map (fun inv =>
            if inv.DeviceId == some id then recomputeRow a.LastReading a.Weight inv now
            else inv)
        = st.inventories.map (fun inv => inv) := by
          refine List.map_congr_left (fun inv hm => ?_)
          by_cases hd : inv.DeviceId = some id
          · rw [if_pos (beq_iff_eq.mpr hd), recomputeRow_skip _ _ _ _ (hinv inv hm hd)]
          · rw [if_neg (by simp [hd])]
      _ = st.inventories := by simp

/-- update_device_weight leaves the inventory table unchanged when every row linked
to the device has UnitWeight absent or zero (the recompute is skipped, no division
happens, and no error is raised). -/
theorem update_device_weight_inventories (st : SystemState) (id : Int) (d : Device)
    (tl : List Device) (w : ℚ) (lo : Bool) (now : Int) (h : readDevices st id = d :: tl)
    (hinv : ∀ inv ∈ st.inventories, inv.DeviceId = some id →
      inv.UnitWeight = none ∨ inv.UnitWeight = some 0) :
    (update_device_weight st id w lo now).1.inventories = st.inventories := by
  cases lo <;>
    simp only [update_device_weight, h, Bool.false_eq_true, if_true, if_false] <;>
    exact update_stock_by_device_skip _ id now hinv

/-- C5: when every inventory row linked to the device has UnitWeight zero or absent,
the weight update still succeeds — LastReading/Weight are written, the history row
is appended — and the stock recompute is skipped, leaving inventory untouched. -/
theorem unitweight_guard (st : SystemState) (id : Int) (d : Device) (w : ℚ)
    (lo : Bool) (now : Int) (h : firstDevice st id = some d)
    (hinv : ∀ inv ∈ st.inventories, inv.DeviceId = some id →
      inv.UnitWeight = none ∨ inv.UnitWeight = some 0) :
    (update_device_weight st id w lo now).2.success = true ∧
    (update_device_weight st id w lo now).1.inventories = st.inventories ∧
    firstDevice (update_device_weight st id w lo now).1 id =
      some { d with LastReading := d.Weight, Weight := w } ∧
    (update_device_weight st id w lo now).1.weightRows =
      st.weightRows ++ [{ DeviceId := id, Weight := w, DateTime := now }] := by
  obtain ⟨tl, hl⟩ := firstDevice_cons st id d h
  refine ⟨by rw [update_device_weight_resp st id d tl w lo now hl],
    update_device_weight_inventories st id d tl w lo now hl hinv, ?_,
    update_device_weight_weightRows st id d tl w lo now hl⟩
  rw [firstDevice, readDevices, update_device_weight_devices st id d tl w lo now hl,
    firstDevice_map_update]
  rw [firstDevice, readDevices] at h
  rw [h]
  rfl

/-- Device of the concrete C5 run. -/
def c5Dev : Device :=
  { DeviceId := 2, DeviceName := "scale-2", Weight := 100, LastReading := 120,
    LocationName := "rack", Status := "Online" }

/-- Inventory row linked to the C5 device with UnitWeight = 0. -/
def c5Row : Inventory :=
  { InventoryId := 9, ItemCode := some "X", ItemName := some "rice", Category := none,
    Description := none, DeviceId := some 2, UnitWeight := some 0,
    Stock := some 7, Threshold := some 3, StockOut := some 1,
    Consumption := some 0, Status := some "Normal", CreatedAt := 0, UpdatedAt := 0 }

/-- State of the concrete C5 run. -/
def c5State : SystemState :=
  { devices := [c5Dev], inventories := [c5Row], weightRows := [], activityRows := [] }

/-- C5 witness: updating the C5 device's weight to 90 succeeds and leaves the
zero-UnitWeight inventory row untouched. -/
theorem unitweight_guard_witness :
    (update_device_weight c5State 2 90 true 11).2.success = true ∧
    (update_device_weight c5State 2 90 true 11).1.inventories = c5State.inventories ∧
    firstDevice (update_device_weight c5State 2 90 true 11).1 2 =
      some { c5Dev with LastReading := c5Dev.Weight, Weight := 90 } ∧
    (update_device_weight c5State 2 90 true 11).1.weightRows =
      c5State.weightRows ++ [{ DeviceId := 2, Weight := 90, DateTime := 11 }] :=
  unitweight_guard c5State 2 c5Dev 90 true 11 rfl
    (by
      intro inv hm hd
      simp only [c5State, List.mem_singleton] at hm
      subst hm
      exact Or.inr rfl)

/-- The counter fold of get_all_devices counts, per recognized status, exactly the
devices stored with that status. -/
theorem foldl_bump_counts (l : List Device) (sc : StatusCount) :
    l.foldl (fun a d => bumpStatus a d.Status) sc =
      { Online := sc.Online + l.countP (fun d => d.Status == "Online"),
        Offline := sc.Offline + l.countP (fun d => d.Status == "Offline"),
        Unlinked := sc.Unlinked + l.countP (fun d => d.Status == "Unlinked"),
        LowBattery := sc.LowBattery + l.countP (fun d => d.Status == "LowBattery") } := by
  induction l generalizing sc with
  | nil => ext <;> simp
  | cons d tl ih =>
    rw [List.foldl_cons, ih]
    unfold bumpStatus
    split_ifs with h1 h2 h3 h4 <;> ext <;> simp_all [List.countP_cons] <;> omega

/-- Device with the given id and stored status, other fields fixed. -/
def mkDev (i : Int) (s : String) : Device :=
  { DeviceId := i, DeviceName := "dev", Weight := 0, LastReading := 0,
    LocationName := "", Status := s }

/-- Five devices with stored statuses Online, Online, Offline, LowBattery, "Unknown". -/
def c7State : SystemState :=
  { devices := [mkDev 1 "Online", mkDev 2 "Online", mkDev 3 "Offline",
      mkDev 4 "LowBattery", mkDev 5 "Unknown"],
    inventories := [], weightRows := [], activityRows := [] }

/-- C7: listing devices tallies status counts only over the four recognized statuses
(each counter equals the number of devices stored with exactly that status, so an
unrecognized status is uncounted) while every device is still returned; on statuses
[Online, Online, Offline, LowBattery, "Unknown"] the counts are
Online 2 / Offline 1 / Unlinked 0 / LowBattery 1 with 5 device entries. -/
theorem device_status_counts :
    (∀ st : SystemState,
        (get_all_devices st).success = true ∧
        (get_all_devices st).data.Devices = st.devices ∧
        (get_all_devices st).data.counts =
          { Online := st.devices.countP (fun d => d.Status == "Online"),
            Offline := st.devices.countP (fun d => d.Status == "Offline"),
            Unlinked := st.devices.countP (fun d => d.Status == "Unlinked"),
            LowBattery := st.devices.countP (fun d => d.Status == "LowBattery") }) ∧
    ((get_all_devices c7State).data.counts =
        { Online := 2, Offline := 1, Unlinked := 0, LowBattery := 1 } ∧
      (get_all_devices c7State).data.Devices.length = 5) := by
  refine ⟨fun st => ⟨rfl, rfl, ?_⟩, by decide, rfl⟩
  show st.devices.foldl (fun sc d => bumpStatus sc d.Status)
      { Online := 0, Offline := 0, Unlinked := 0, LowBattery := 0 } = _
  rw [foldl_bump_counts]
  simp

/-- C8: an inventory row whose DeviceId is absent or references no existing device is
still read successfully — get_inventory answers success with a null Device embed, the
get_all_inventory entry for the row embeds null — and LinkedDevices counts exactly
the rows whose DeviceId resolves to a device. -/
theorem dangling_device_reads (st : SystemState) (invId : Int) (inv : Inventory)
    (h : (st.inventories.filter (fun i => i.InventoryId == invId)).head? = some inv)
    (hd : ∀ d ∈ st.devices, some d.DeviceId ≠ inv.DeviceId) :
    ((get_inventory st invId).success = true ∧
      ∃ v, (get_inventory st invId).data = some v ∧ v.Device = none) ∧
    ((get_all_inventory st).success = true ∧
      (get_all_inventory st).data.InventoryData = st.inventories.map (invListView st.devices) ∧
      (invListView st.devices inv).Device = none) ∧
    (∀ st2 : SystemState,
      (get_all_inventory st2).data.LinkedDevices =
        st2.inventories.countP (fun i => (deviceMapGet st2.devices i.DeviceId).isSome)) := by
  obtain ⟨tl, hl⟩ : ∃ tl, st.inventories.filter (fun i => i.InventoryId == invId) = inv :: tl := by
    cases hR : st.inventories.filter (fun i => i.InventoryId == invId) with
    | nil => rw [hR] at h; exact absurd h (by simp)
    | cons a tl =>
      rw [hR] at h
      simp only [List.head?_cons, Option.some.injEq] at h
      subst h
      exact ⟨tl, rfl⟩
  have hfilter : st.devices.filter (fun d => some d.DeviceId == inv.DeviceId) = [] := by
    rw [List.filter_eq_nil_iff]
    intro d hm
    simp only [beq_iff_eq]
    exact hd d hm
  have hmap : deviceMapGet st.devices inv.DeviceId = none := by
    cases hid : inv.DeviceId with
    | none => rfl
    | some k =>
      rw [deviceMapGet]
      have : st.devices.filter (fun d => d.DeviceId == k) = [] := by
        rw [List.filter_eq_nil_iff]
        intro d hm
        simp only [beq_iff_eq]
        intro hk
        exact hd d hm (by rw [hk, hid])
      rw [this]
      rfl
  refine ⟨?_, ⟨rfl, rfl, ?_⟩, fun st2 => rfl⟩
  · simp only [get_inventory, hl]
    refine ⟨trivial, ?_⟩
    refine ⟨_, rfl, ?_⟩
    cases ht : truthyId inv.DeviceId
    · simp
    · simp [ht, hfilter]
  · rw [invListView]
    simp only [hmap]
    rfl

/-- Inventory row with a dangling device reference (DeviceId 99, no such device). -/
def c8Row : Inventory :=
  { InventoryId := 4, ItemCode := some "C", ItemName := some "corn", Category := none,
    Description := none, DeviceId := some 99, UnitWeight := some 2,
    Stock := some 10, Threshold := some 4, StockOut := some 1,
    Consumption := some 0, Status := some "Normal", CreatedAt := 0, UpdatedAt := 0 }

/-- State with one device (id 1) and one inventory row pointing at missing device 99. -/
def c8State : SystemState :=
  { devices := [mkDev 1 "Online"], inventories := [c8Row],
    weightRows := [], activityRows := [] }

/-- C8 witness: reading the dangling row succeeds with a null device embed. -/
theorem dangling_device_reads_witness :
    (get_inventory c8State 4).success = true ∧
    ∃ v, (get_inventory c8State 4).data = some v ∧ v.Device = none :=
  (dangling_device_reads c8State 4 c8Row rfl
    (by
      intro d hm
      simp only [c8State, List.mem_singleton] at hm
      subst hm
      simp [mkDev, c8Row])).1

/-- C9: sync_device succeeds for every device id — even one matching no device row —
returning that DeviceId; it reads and writes no device/inventory/history state, and
its only effect is the swallowed-on-failure activity-log append. -/
theorem sync_no_not_found_check (st : SystemState) (id : Int) (lo : Bool) (now : Int) :
    (sync_device st id lo now).2.success = true ∧
    (sync_device st id lo now).2.message = "Device synced successfully" ∧
    (sync_device st id lo now).2.data = { DeviceId := id } ∧
    (sync_device st id lo now).1.devices = st.devices ∧
    (sync_device st id lo now).1.inventories = st.inventories ∧
    (sync_device st id lo now).1.weightRows = st.weightRows ∧
    (sync_device st id lo now).1.activityRows =
      (if lo then
        st.activityRows ++ [{ DeviceId := id, Event := "Device Synched", DateTime := now }]
       else st.activityRows) := by
  cases lo <;> simp [sync_device]

/-- Any wtGet result is sorted newest-first. -/
theorem wtGet_sorted (st : SystemState) (id : Int) (fb : Option String) (now : Int) :
    List.Sorted wtDateDesc (wtGet st id fb now) :=
  List.sorted_insertionSort wtDateDesc _

/-- Any alGet result is sorted newest-first. -/
theorem alGet_sorted (st : SystemState) (id : Int) (fb : Option String) (now : Int) :
    List.Sorted alDateDesc (alGet st id fb now) :=
  List.sorted_insertionSort alDateDesc _

/-- C10: a history/log retrieval with a filter value outside day/week/month applies
no time window at all — it returns exactly what the unfiltered call returns, still
sorted newest-first by DateTime. -/
theorem unknown_filter_ignored (st : SystemState) (id : Int) (fb : String) (now : Int)
    (h1 : fb ≠ "day") (h2 : fb ≠ "week") (h3 : fb ≠ "month") :
    wtGet st id (some fb) now = wtGet st id none now ∧
    alGet st id (some fb) now = alGet st id none now ∧
    List.Sorted wtDateDesc (wtGet st id (some fb) now) ∧
    List.Sorted alDateDesc (alGet st id (some fb) now) := by
  have hw : windowDays fb = none := by
    rw [windowDays, if_neg h1, if_neg h2, if_neg h3]
  refine ⟨?_, ?_, wtGet_sorted st id (some fb) now, alGet_sorted st id (some fb) now⟩
  · by_cases he : fb = "" <;> simp [wtGet, he, hw]
  · by_cases he : fb = "" <;> simp [alGet, he, hw]

/-- State with two history rows and two log rows for device 1. -/
def c10State : SystemState :=
  { devices := [mkDev 1 "Online"], inventories := [],
    weightRows := [{ DeviceId := 1, Weight := 5, DateTime := 100 },
                   { DeviceId := 1, Weight := 6, DateTime := 200 }],
    activityRows := [{ DeviceId := 1, Event := "a", DateTime := 100 },
                     { DeviceId := 1, Event := "b", DateTime := 200 }] }

/-- C10 witness: the filter value "year" is ignored on a concrete two-row state. -/
theorem unknown_filter_ignored_witness :
    wtGet c10State 1 (some "year") 300 = wtGet c10State 1 none 300 ∧
    alGet c10State 1 (some "year") 300 = alGet c10State 1 none 300 :=
  ⟨(unknown_filter_ignored c10State 1 "year" 300 (by decide) (by decide) (by decide)).1,
   (unknown_filter_ignored c10State 1 "year" 300 (by decide) (by decide) (by decide)).2.1⟩

/-- C6 counterexample: the weight-tracking delete endpoint's response is not a full
envelope — it lacks both the message and the data field. -/
theorem envelope_counterexample : hasEnvelopeKeys (wt_api_delete_response 0) = false := rfl

/-- C6 amended: the device-manager responses are full success/message/data envelopes
on their main paths (weight update success and failure, device fetch found and
not-found), but the generic update's not-found branch omits data, the tracking get
endpoints return only success and data, their delete endpoints only success and the
deleted count, their clear endpoints only success and message, and their create
endpoints return the raw created row with no envelope fields at all. -/
theorem envelope_shapes :
    (∀ id : Int, ∀ lr w : ℚ, hasEnvelopeKeys (udw_success_response id lr w) = true) ∧
    (∀ m : String, hasEnvelopeKeys (udw_failure_response m) = true) ∧
    (∀ d : JVal, hasEnvelopeKeys (get_device_found_response d) = true) ∧
    hasEnvelopeKeys get_device_notfound_response = true ∧
    (∀ rows : Int, hasEnvelopeKeys (update_device_success_response rows) = true) ∧
    responseKeys update_device_notfound_response = ["success", "message"] ∧
    (∀ d : JVal, responseKeys (wt_api_get_response d) = ["success", "data"]) ∧
    (∀ rows : Int, responseKeys (wt_api_delete_response rows) = ["success", "deleted"]) ∧
    responseKeys wt_api_clear_response = ["success", "message"] ∧
    (∀ r : WTRow, jvalKeys (wt_api_create_response r) = some ["DeviceId", "Weight", "DateTime"]) ∧
    (∀ d : JVal, responseKeys (al_api_get_response d) = ["success", "data"]) ∧
    (∀ rows : Int, responseKeys (al_api_delete_response rows) = ["success", "deleted"]) ∧
    responseKeys al_api_clear_response = ["success", "message"] ∧
    (∀ r : ALRow, jvalKeys (al_api_create_response r) = some ["DeviceId", "Event", "DateTime"]) :=
  ⟨fun _ _ _ => rfl, fun _ => rfl, fun _ => rfl, rfl, fun _ => rfl, rfl, fun _ => rfl,
   fun _ => rfl, rfl, fun _ => rfl, fun _ => rfl, fun _ => rfl, rfl, fun _ => rfl⟩

end InventoryApp
